import Mathlib

/-!
Shallow embedding of the network_manager frontend core: the service data model
(`src/lib/tauri/types.ts`), the real-time service-event handler
(`src/lib/hooks/useRealtime.ts`), the service store control operations
(`src/stores/serviceStore.ts`), the port store (`src/stores/portStore.ts`),
the performance history ring buffer (`src/pages/Performance.tsx`), the
recommendation request projection (`src/lib/tauri/commands.ts`) and the
security page issue grouping (`src/pages/Security.tsx`), together with
theorems about them.
-/

set_option maxRecDepth 8000

namespace NetworkManager

/-- `ServiceStatus` from types.ts: "running" | "stopped" | "error" | "unknown". -/
inductive ServiceStatus where
  | running
  | stopped
  | error
  | unknown
deriving DecidableEq, Repr

/-- `ServiceType` from types.ts. -/
inductive ServiceType where
  | docker
  | systemd
  | launchd
  | windows_service
  | process
deriving DecidableEq, Repr

/-- `Service` record from types.ts; JS numbers are embedded as `Rat` for
percentages and `Nat` for ports/pids/bytes. -/
structure Service where
  id : String
  name : String
  status : ServiceStatus
  service_type : ServiceType
  ports : List Nat
  pid : Option Nat
  path : Option String
  description : Option String
  auto_start : Bool
  cpu_usage : Option Rat
  memory_bytes : Option Nat
  memory_percent : Option Rat
deriving DecidableEq, Repr

/-- The `ServiceEvent` tagged union from useRealtime.ts. -/
inductive ServiceEvent where
  | servicesDiscovered (payload : List Service)
  | serviceStatusChanged (service_id : String) (old_status new_status : ServiceStatus)
  | serviceAdded (payload : Service)
  | serviceRemoved (service_id : String)
  | servicePortsChanged (service_id : String) (ports : List Nat)
deriving DecidableEq, Repr

/-- The part of the Zustand service store state (serviceStore.ts) the event
handler and control operations read and write. -/
structure ServiceStoreState where
  services : List Service
  selectedService : Option Service
  isLoading : Bool
  error : Option String
  /-- whether `autoRefreshInterval` is non-null in serviceStore.ts -/
  autoRefreshOn : Bool
deriving DecidableEq, Repr

/-- Initial store state from serviceStore.ts: `services: [], selectedService:
null, isLoading: false, error: null, autoRefreshInterval: null`. -/
def initialServiceStoreState : ServiceStoreState :=
  { services := [], selectedService := none, isLoading := false, error := none
    autoRefreshOn := false }

/-- `handleServiceEvent` from useRealtime.ts: the switch over the event type
applied to the current store state. -/
def handleServiceEvent (state : ServiceStoreState) (event : ServiceEvent) :
    ServiceStoreState :=
  match event with
  | .servicesDiscovered payload =>
      { state with services := payload, isLoading := false }
  | .serviceStatusChanged sid _old newStatus =>
      { state with
        services := state.services.map fun s =>
          if s.id == sid then { s with status := newStatus } else s }
  | .serviceAdded svc =>
      { state with services := state.services ++ [svc] }
  | .serviceRemoved sid =>
      { state with
        services := state.services.filter fun s => s.id != sid
        selectedService :=
          match state.selectedService with
          | some sel => if sel.id == sid then none else some sel
          | none => none }
  | .servicePortsChanged sid newPorts =>
      { state with
        services := state.services.map fun s =>
          if s.id == sid then { s with ports := newPorts } else s }

/-- Folding a sequence of events through the handler. -/
def applyEvents (state : ServiceStoreState) (events : List ServiceEvent) :
    ServiceStoreState :=
  events.foldl handleServiceEvent state

/-- The ids of the services currently in the store. -/
def storeIds (state : ServiceStoreState) : List String :=
  state.services.map Service.id

/-- A concrete sample service used by witnesses and counterexamples. -/
def svcA : Service :=
  { id := "a", name := "alpha", status := .running, service_type := .process
    ports := [80], pid := some 100, path := none, description := none
    auto_start := false, cpu_usage := none, memory_bytes := none
    memory_percent := none }

/-- A second concrete sample service with a distinct id. -/
def svcB : Service :=
  { id := "b", name := "beta", status := .stopped, service_type := .docker
    ports := [443, 8080], pid := some 200, path := some "/opt/b"
    description := some "b svc", auto_start := true, cpu_usage := some 2
    memory_bytes := some 1024, memory_percent := some 1 }

/-- The admissibility condition C2 places on events: a `ServicesDiscovered`
payload must itself carry pairwise-distinct ids; no condition on the others. -/
def eventAdmissible : ServiceEvent → Prop
  | .servicesDiscovered payload => (payload.map Service.id).Nodup
  | _ => True

lemma applyEvents_added_services (init : ServiceStoreState) (S : List Service) :
    (applyEvents init (S.map ServiceEvent.serviceAdded)).services =
      init.services ++ S := by
  induction S generalizing init with
  | nil => simp [applyEvents]
  | cons s rest ih =>
      simp only [List.map_cons, applyEvents, List.foldl_cons]
      have := ih (handleServiceEvent init (.serviceAdded s))
      simp only [applyEvents] at this
      rw [this]
      simp [handleServiceEvent]

/-- C1: replaying one `ServiceAdded` event per element of a distinct-id list
`S` from the empty store produces exactly the same service list (hence the
same ids and the same field values) as the single `ServicesDiscovered` event
carrying `S`. -/
theorem discovered_equals_incremental_added (S : List Service)
    (_hids : (S.map Service.id).Nodup) :
    (applyEvents initialServiceStoreState (S.map ServiceEvent.serviceAdded)).services =
      (handleServiceEvent initialServiceStoreState (.servicesDiscovered S)).services := by
  rw [applyEvents_added_services]
  simp [handleServiceEvent, initialServiceStoreState]

/-- Witness for C1 at a concrete two-element service list. -/
theorem discovered_equals_incremental_added_witness :
    (applyEvents initialServiceStoreState
        ([svcA, svcB].map ServiceEvent.serviceAdded)).services =
      (handleServiceEvent initialServiceStoreState
        (.servicesDiscovered [svcA, svcB])).services :=
  discovered_equals_incremental_added [svcA, svcB] (by decide)

/-- A store state holding just `svcA`, used in witnesses and counterexamples. -/
def stW : ServiceStoreState :=
  { initialServiceStoreState with services := [svcA] }

/-- C2 counterexample: the invariant as claimed fails, because the
`ServiceAdded` branch appends its payload unconditionally; adding a service
whose id is already present duplicates that id. -/
theorem ids_nodup_not_invariant :
    ¬ (∀ (st : ServiceStoreState) (e : ServiceEvent),
        (storeIds st).Nodup → eventAdmissible e →
        (storeIds (handleServiceEvent st e)).Nodup) := by
  intro h
  have h2 := h stW (.serviceAdded svcA) (by decide) trivial
  revert h2
  decide

/-- The amended admissibility condition: in addition to C2's conditions, a
`ServiceAdded` payload's id must not already be present in the store. -/
def eventAdmissibleFor (st : ServiceStoreState) : ServiceEvent → Prop
  | .servicesDiscovered payload => (payload.map Service.id).Nodup
  | .serviceAdded svc => svc.id ∉ storeIds st
  | _ => True

lemma storeIds_map_preserving (st : ServiceStoreState) (f : Service → Service)
    (hf : ∀ s, (f s).id = s.id) :
    (st.services.map f).map Service.id = storeIds st := by
  rw [List.map_map]
  exact List.map_congr_left fun s _ => hf s

/-- C2 (amended): id-distinctness is preserved by every event, provided a
`ServicesDiscovered` payload has distinct ids and a `ServiceAdded` payload's
id is not already in the store. -/
theorem ids_nodup_invariant (st : ServiceStoreState) (e : ServiceEvent)
    (hst : (storeIds st).Nodup) (he : eventAdmissibleFor st e) :
    (storeIds (handleServiceEvent st e)).Nodup := by
  cases e with
  | servicesDiscovered payload =>
      simpa [handleServiceEvent, storeIds] using he
  | serviceStatusChanged sid o n =>
      simp only [handleServiceEvent, storeIds]
      rw [storeIds_map_preserving]
      · exact hst
      · intro s; split <;> rfl
  | serviceAdded svc =>
      simp only [handleServiceEvent, storeIds, List.map_append, List.map_cons,
        List.map_nil, List.nodup_append]
      refine ⟨hst, List.nodup_singleton _, ?_⟩
      intro a ha hb
      simp only [List.mem_singleton] at hb
      exact he (hb ▸ ha)
  | serviceRemoved sid =>
      have hsub : ((st.services.filter fun s => s.id != sid).map Service.id).Sublist
          (st.services.map Service.id) :=
        (List.filter_sublist _).map _
      exact hsub.nodup hst
  | servicePortsChanged sid newPorts =>
      simp only [handleServiceEvent, storeIds]
      rw [storeIds_map_preserving]
      · exact hst
      · intro s; split <;> rfl

/-- Witness for the amended C2: adding `svcB` (fresh id) to a store holding
`svcA` keeps the ids pairwise distinct. -/
theorem ids_nodup_invariant_witness :
    (storeIds (handleServiceEvent stW (.serviceAdded svcB))).Nodup :=
  ids_nodup_invariant stW (.serviceAdded svcB) (by decide)
    (by exact (by decide : svcB.id ∉ storeIds stW))

/-- C5: a `ServiceStatusChanged` event leaves the selection, error and loading
flags unchanged, preserves the number and order of services, leaves every
service whose id differs from the event's id untouched, and rewrites only the
`status` field of the service whose id matches. -/
theorem status_changed_frame (st : ServiceStoreState) (sid : String)
    (o n : ServiceStatus) :
    (handleServiceEvent st (.serviceStatusChanged sid o n)).selectedService =
        st.selectedService ∧
    (handleServiceEvent st (.serviceStatusChanged sid o n)).error = st.error ∧
    (handleServiceEvent st (.serviceStatusChanged sid o n)).isLoading =
        st.isLoading ∧
    (handleServiceEvent st (.serviceStatusChanged sid o n)).services.length =
        st.services.length ∧
    ∀ i s, st.services.get? i = some s →
      (s.id ≠ sid →
        (handleServiceEvent st (.serviceStatusChanged sid o n)).services.get? i =
          some s) ∧
      (s.id = sid →
        (handleServiceEvent st (.serviceStatusChanged sid o n)).services.get? i =
          some { s with status := n }) := by
  refine ⟨rfl, rfl, rfl, by simp [handleServiceEvent], ?_⟩
  intro i s hs
  simp only [handleServiceEvent, List.get?_map, hs, Option.map_some']
  constructor
  · intro hne
    simp [hne]
  · intro heq
    simp [heq]

/-- Witness for C5 at a concrete store with two services: the non-matching
service (index 0) is unchanged, the matching one (index 1) gets the new
status. -/
theorem status_changed_frame_witness :
    ((handleServiceEvent { initialServiceStoreState with services := [svcA, svcB] }
        (.serviceStatusChanged "b" .stopped .running)).services.get? 0 = some svcA) ∧
    ((handleServiceEvent { initialServiceStoreState with services := [svcA, svcB] }
        (.serviceStatusChanged "b" .stopped .running)).services.get? 1 =
          some { svcB with status := .running }) :=
  ⟨((status_changed_frame { initialServiceStoreState with services := [svcA, svcB] }
      "b" .stopped .running).2.2.2.2 0 svcA rfl).1 (by decide),
   ((status_changed_frame { initialServiceStoreState with services := [svcA, svcB] }
      "b" .stopped .running).2.2.2.2 1 svcB rfl).2 rfl⟩

/-- C8: a `ServiceRemoved` event removes exactly the services with the removed
id (every other service stays, in order), leaves loading and error untouched,
and clears the selection exactly when the selected service's id equals the
removed id. -/
theorem service_removed_frame (st : ServiceStoreState) (sid : String) :
    (∀ s : Service,
      s ∈ (handleServiceEvent st (.serviceRemoved sid)).services ↔
        s ∈ st.services ∧ s.id ≠ sid) ∧
    (handleServiceEvent st (.serviceRemoved sid)).services.Sublist st.services ∧
    (handleServiceEvent st (.serviceRemoved sid)).isLoading = st.isLoading ∧
    (handleServiceEvent st (.serviceRemoved sid)).error = st.error ∧
    (∀ sel, st.selectedService = some sel →
      (handleServiceEvent st (.serviceRemoved sid)).selectedService =
        if sel.id = sid then none else some sel) ∧
    (st.selectedService = none →
      (handleServiceEvent st (.serviceRemoved sid)).selectedService = none) := by
  refine ⟨?_, ?_, rfl, rfl, ?_, ?_⟩
  · intro s
    simp [handleServiceEvent, List.mem_filter]
  · exact List.filter_sublist _
  · intro sel hsel
    simp only [handleServiceEvent, hsel]
    by_cases h : sel.id = sid <;> simp [h]
  · intro hnone
    simp [handleServiceEvent, hnone]

/-- Witness for C8: removing id "a" from a store with `svcA` selected clears
the selection; with `svcB` selected instead, the selection survives. -/
theorem service_removed_frame_witness :
    ((handleServiceEvent
        { stW with selectedService := some svcA }
        (.serviceRemoved "a")).selectedService = none) ∧
    ((handleServiceEvent
        { stW with selectedService := some svcB }
        (.serviceRemoved "a")).selectedService = some svcB) ∧
    (svcA ∈ (handleServiceEvent { stW with selectedService := some svcA }
        (.serviceRemoved "a")).services ↔
      svcA ∈ ({ stW with selectedService := some svcA } :
        ServiceStoreState).services ∧ svcA.id ≠ "a") := by
  refine ⟨?_, ?_, ?_⟩
  · have h := (service_removed_frame { stW with selectedService := some svcA }
      "a").2.2.2.2.1 svcA rfl
    simpa [svcA] using h
  · have h := (service_removed_frame { stW with selectedService := some svcB }
      "a").2.2.2.2.1 svcB rfl
    simpa [svcB] using h
  · exact (service_removed_frame { stW with selectedService := some svcA }
      "a").1 svcA

/-- `fetchServices` from serviceStore.ts, with the backend `discover_services`
outcome passed in explicitly: outside auto-refresh the loading flag is raised
and the error cleared first; then either the discovered services are stored or
the error message is recorded, the loading flag lowered either way. -/
def fetchServicesStep (st : ServiceStoreState)
    (r : Except String (List Service)) : ServiceStoreState :=
  let st1 := if st.autoRefreshOn then st
             else { st with isLoading := true, error := none }
  match r with
  | .ok svcs => { st1 with services := svcs, isLoading := false }
  | .error e => { st1 with error := some e, isLoading := false }

/-- Modelled from the spec: the backend service-control commands
(`start_service`, `stop_service`, `restart_service` — Rust code not under
src/) reject with `NotFound` when the referenced id is no longer present in
the registry (here: the store's current services); otherwise the request
itself succeeds. -/
def backendControl (registry : List Service) (serviceId : String) :
    Except String Unit :=
  if registry.any (fun s => s.id == serviceId) then .ok () else .error "NotFound"

/-- `startService` from serviceStore.ts: issue the backend call (modelled by
`backendControl`), refresh on success, record the rejection message in the
store's error field on failure. The second component logs the backend control
requests issued. -/
def startServiceStore (st : ServiceStoreState) (sid : String)
    (fetch : Except String (List Service)) : ServiceStoreState × List String :=
  match backendControl st.services sid with
  | .ok _ => (fetchServicesStep st fetch, ["start_service"])
  | .error e => ({ st with error := some e }, ["start_service"])

/-- `stopService` from serviceStore.ts; same shape as `startService`. -/
def stopServiceStore (st : ServiceStoreState) (sid : String)
    (fetch : Except String (List Service)) : ServiceStoreState × List String :=
  match backendControl st.services sid with
  | .ok _ => (fetchServicesStep st fetch, ["stop_service"])
  | .error e => ({ st with error := some e }, ["stop_service"])

/-- `restartService` from serviceStore.ts; same shape as `startService`. -/
def restartServiceStore (st : ServiceStoreState) (sid : String)
    (fetch : Except String (List Service)) : ServiceStoreState × List String :=
  match backendControl st.services sid with
  | .ok _ => (fetchServicesStep st fetch, ["restart_service"])
  | .error e => ({ st with error := some e }, ["restart_service"])

/-- `killService` from serviceStore.ts: look the id up locally; only when a
service with that id and a pid exists is `kill_process` invoked (outcome
passed in as `killResult`) and a refresh performed; otherwise nothing at all
happens — no backend call, no error. -/
def killServiceStore (st : ServiceStoreState) (sid : String)
    (killResult : Except String Unit)
    (fetch : Except String (List Service)) : ServiceStoreState × List String :=
  match st.services.find? (fun s => s.id == sid) with
  | some s =>
      match s.pid with
      | some _ =>
          match killResult with
          | .ok _ => (fetchServicesStep st fetch, ["kill_process"])
          | .error e => ({ st with error := some e }, ["kill_process"])
      | none => (st, [])
  | none => (st, [])

/-- `toggleAutostart` from serviceStore.ts: unknown id sets the store error
"Service nicht gefunden" and returns without calling the backend; otherwise
the enable/disable command is issued (outcome `apiResult`), refreshing on
success, and on failure recording the error AND rethrowing it (third
component: the propagated rejection). -/
def toggleAutostartStore (st : ServiceStoreState) (sid : String) (enable : Bool)
    (apiResult : Except String Unit) (fetch : Except String (List Service)) :
    ServiceStoreState × List String × Option String :=
  match st.services.find? (fun s => s.id == sid) with
  | none => ({ st with error := some "Service nicht gefunden" }, [], none)
  | some _ =>
      match apiResult with
      | .ok _ =>
          (fetchServicesStep st fetch,
           [if enable then "enable_service_autostart"
            else "disable_service_autostart"], none)
      | .error e =>
          ({ st with error := some e },
           [if enable then "enable_service_autostart"
            else "disable_service_autostart"], some e)

lemma find?_eq_none_of_not_mem_ids (st : ServiceStoreState) (sid : String)
    (h : sid ∉ storeIds st) :
    st.services.find? (fun s => s.id == sid) = none := by
  rw [List.find?_eq_none]
  intro s hs
  simp only [beq_iff_eq]
  intro heq
  exact h (heq ▸ List.mem_map_of_mem Service.id hs)

lemma backendControl_not_mem (st : ServiceStoreState) (sid : String)
    (h : sid ∉ storeIds st) :
    backendControl st.services sid = .error "NotFound" := by
  have : st.services.any (fun s => s.id == sid) = false := by
    rw [Bool.eq_false_iff]
    intro hany
    rcases List.any_eq_true.mp hany with ⟨s, hs, hb⟩
    exact h ((beq_iff_eq.mp hb) ▸ List.mem_map_of_mem Service.id hs)
  simp [backendControl, this]

/-- C6 counterexample: `killService` invoked with an id absent from the
registry silently does nothing — it issues no backend request, sets no error
and propagates nothing — refuting the claim that every control operation
reports the NotFound condition to its caller. -/
theorem control_notfound_not_always_reported :
    ¬ (∀ (st : ServiceStoreState) (sid : String)
        (killResult : Except String Unit)
        (fetch : Except String (List Service)),
        sid ∉ storeIds st →
        ((killServiceStore st sid killResult fetch).1.error.isSome = true ∧
         (killServiceStore st sid killResult fetch).2.length ≤ 1)) := by
  intro h
  have h2 := h initialServiceStoreState "zz" (.ok ()) (.ok [])
    (by decide)
  revert h2
  decide

/-- C6 (amended): with an id absent from the registry, start/stop/restart set
the store error to the backend's NotFound rejection after exactly one backend
request (no retry); toggleAutostart sets the local not-found error with zero
backend requests and propagates nothing; killService alone silently no-ops —
unchanged state, no backend request, no error. -/
theorem control_notfound_reporting (st : ServiceStoreState) (sid : String)
    (enable : Bool) (killResult apiResult : Except String Unit)
    (fetch : Except String (List Service)) (h : sid ∉ storeIds st) :
    ((startServiceStore st sid fetch).1.error = some "NotFound" ∧
      (startServiceStore st sid fetch).2 = ["start_service"]) ∧
    ((stopServiceStore st sid fetch).1.error = some "NotFound" ∧
      (stopServiceStore st sid fetch).2 = ["stop_service"]) ∧
    ((restartServiceStore st sid fetch).1.error = some "NotFound" ∧
      (restartServiceStore st sid fetch).2 = ["restart_service"]) ∧
    ((killServiceStore st sid killResult fetch).1 = st ∧
      (killServiceStore st sid killResult fetch).2 = []) ∧
    ((toggleAutostartStore st sid enable apiResult fetch).1.error =
        some "Service nicht gefunden" ∧
      (toggleAutostartStore st sid enable apiResult fetch).2.1 = [] ∧
      (toggleAutostartStore st sid enable apiResult fetch).2.2 = none) := by
  have hbc := backendControl_not_mem st sid h
  have hf := find?_eq_none_of_not_mem_ids st sid h
  refine ⟨?_, ?_, ?_, ?_, ?_⟩
  · simp [startServiceStore, hbc]
  · simp [stopServiceStore, hbc]
  · simp [restartServiceStore, hbc]
  · simp [killServiceStore, hf]
  · simp [toggleAutostartStore, hf]

/-- Witness for the amended C6 at a store holding only `svcA` and the absent
id "zz". -/
theorem control_notfound_reporting_witness :
    (startServiceStore stW "zz" (.ok [])).1.error = some "NotFound" ∧
    (killServiceStore stW "zz" (.ok ()) (.ok [])).1 = stW ∧
    (toggleAutostartStore stW "zz" true (.ok ()) (.ok [])).1.error =
      some "Service nicht gefunden" :=
  ⟨(control_notfound_reporting stW "zz" true (.ok ()) (.ok ()) (.ok [])
      (by decide)).1.1,
   (control_notfound_reporting stW "zz" true (.ok ()) (.ok ()) (.ok [])
      (by decide)).2.2.2.1.1,
   (control_notfound_reporting stW "zz" true (.ok ()) (.ok ()) (.ok [])
      (by decide)).2.2.2.2.1⟩

/-- `Protocol` from types.ts. -/
inductive Protocol where
  | tcp
  | udp
deriving DecidableEq, Repr

/-- `PortStatus` from types.ts. -/
inductive PortStatus where
  | occupied
  | free
deriving DecidableEq, Repr

/-- `PortInfo` from types.ts. -/
structure PortInfo where
  port : Nat
  protocol : Protocol
  status : PortStatus
  process_name : Option String
  pid : Option Nat
deriving DecidableEq, Repr

/-- The Zustand port store state from portStore.ts. -/
structure PortStoreState where
  ports : List PortInfo
  isLoading : Bool
  error : Option String
deriving DecidableEq, Repr

/-- The failure the free-port search can report. -/
inductive PortError where
  | exhaustedRange
deriving DecidableEq, Repr

/-- Rendering of `PortError` as the rejection message the frontend stringifies. -/
def portErrorString : PortError → String
  | .exhaustedRange => "ExhaustedRange"

/-- Modelled from the spec: the scan loop of the backend free-port search
(`find_free_ports`, Rust code not under src/). It examines `port`, skipping
occupied ports and collecting free ones (accumulated in reverse), until
`count` ports are gathered; `fuel` is the number of candidate ports left
before the scan reaches the maximum port value 65535, at which point it fails
with `ExhaustedRange`. -/
def findFreePortsScanGo (occupied : List Nat) (count : Nat) :
    Nat → Nat → List Nat → Except PortError (List Nat)
  | fuel, port, acc =>
    if acc.length = count then .ok acc.reverse
    else
      match fuel with
      | 0 => .error .exhaustedRange
      | fuel' + 1 =>
          if port ∈ occupied then
            findFreePortsScanGo occupied count fuel' (port + 1) acc
          else
            findFreePortsScanGo occupied count fuel' (port + 1) (port :: acc)

/-- Modelled from the spec: `find_free_ports(count)` scans upward from the
first non-well-known port 1024 and returns the first `count` ports absent
from the occupied set, failing with `ExhaustedRange` if it reaches 65535
first. -/
def findFreePortsBackend (occupied : List Nat) (count : Nat) :
    Except PortError (List Nat) :=
  findFreePortsScanGo occupied count (65535 - 1024) 1024 []

/-- `findFreePorts` from portStore.ts: the backend result is returned to the
caller unchanged on success; a rejection is caught, its message stored in the
store's `error` field, and the empty list returned — so the promise handed to
the caller always resolves (first component is never `.error`). -/
def findFreePortsStore (st : PortStoreState) (occupied : List Nat)
    (count : Nat) : Except String (List Nat) × PortStoreState :=
  match findFreePortsBackend occupied count with
  | .ok ps => (.ok ps, st)
  | .error e => (.ok [], { st with error := some (portErrorString e) })

lemma findFreePortsScanGo_ok (occupied : List Nat) (count : Nat)
    (fuel port : Nat) (acc ps : List Nat)
    (hacc : ∀ a ∈ acc, 1024 ≤ a ∧ a < port ∧ a ∉ occupied)
    (hchain : List.Chain' (· > ·) acc)
    (hlen : acc.length ≤ count)
    (hport : 1024 ≤ port)
    (h : findFreePortsScanGo occupied count fuel port acc = .ok ps) :
    ps.length = count ∧ List.Chain' (· < ·) ps ∧
      ∀ p ∈ ps, 1024 ≤ p ∧ p ∉ occupied := by
  induction fuel generalizing port acc with
  | zero =>
      rw [findFreePortsScanGo] at h
      by_cases hl : acc.length = count
      · simp only [hl, if_pos rfl] at h
        cases h
        refine ⟨by simpa using hl, ?_, ?_⟩
        · rw [List.chain'_reverse]
          exact hchain
        · intro p hp
          have := hacc p (List.mem_reverse.mp hp)
          exact ⟨this.1, this.2.2⟩
      · simp [hl] at h
  | succ fuel' ih =>
      rw [findFreePortsScanGo] at h
      by_cases hl : acc.length = count
      · simp only [hl, if_pos rfl] at h
        cases h
        refine ⟨by simpa using hl, ?_, ?_⟩
        · rw [List.chain'_reverse]
          exact hchain
        · intro p hp
          have := hacc p (List.mem_reverse.mp hp)
          exact ⟨this.1, this.2.2⟩
      · simp only [hl, if_neg hl, if_false] at h
        by_cases hocc : port ∈ occupied
        · rw [if_pos hocc] at h
          exact ih (port + 1) acc
            (fun a ha => ⟨(hacc a ha).1, Nat.lt_succ_of_lt (hacc a ha).2.1,
              (hacc a ha).2.2⟩)
            hchain hlen (Nat.le_succ_of_le hport) h
        · rw [if_neg hocc] at h
          refine ih (port + 1) (port :: acc) ?_ ?_ ?_ (Nat.le_succ_of_le hport) h
          · intro a ha
            rcases List.mem_cons.mp ha with rfl | ha'
            · exact ⟨hport, Nat.lt_succ_self _, hocc⟩
            · exact ⟨(hacc a ha').1, Nat.lt_succ_of_lt (hacc a ha').2.1,
                (hacc a ha').2.2⟩
          · refine List.chain'_cons'.mpr ⟨?_, hchain⟩
            intro b hb
            exact (hacc b (List.mem_of_mem_head? hb)).2.1
          · simpa using Nat.lt_of_le_of_ne hlen hl

lemma findFreePortsScanGo_empty_exhausts (count : Nat) (fuel port : Nat)
    (acc : List Nat) (h : acc.length + fuel < count) :
    findFreePortsScanGo [] count fuel port acc = .error .exhaustedRange := by
  induction fuel generalizing port acc with
  | zero =>
      rw [findFreePortsScanGo]
      have : acc.length ≠ count := by omega
      simp [this]
  | succ fuel' ih =>
      rw [findFreePortsScanGo]
      have : acc.length ≠ count := by omega
      simp only [this, if_neg this, if_false, List.not_mem_nil]
      exact ih (port + 1) (port :: acc) (by simp; omega)

/-- C3 counterexample: asking for more free ports than the scan range can ever
supply (here 70000 with nothing occupied) makes the backend fail, but the
store-level `findFreePorts` resolves successfully with the empty list instead
of passing the failure to its caller — refuting the claim as stated. -/
theorem findFreePorts_not_failure_to_caller :
    ¬ (∀ (st : PortStoreState) (occupied : List Nat) (count : Nat),
        (∃ ps, (findFreePortsStore st occupied count).1 = .ok ps ∧
          ps.length = count ∧ List.Chain' (· < ·) ps ∧
          ∀ p ∈ ps, 1024 ≤ p ∧ p ∉ occupied) ∨
        (findFreePortsStore st occupied count).1 =
          .error (portErrorString .exhaustedRange)) := by
  intro h
  have hbackend : findFreePortsBackend [] 70000 = .error .exhaustedRange :=
    findFreePortsScanGo_empty_exhausts 70000 (65535 - 1024) 1024 [] (by norm_num)
  have h2 := h { ports := [], isLoading := false, error := none } [] 70000
  rw [findFreePortsStore, hbackend] at h2
  rcases h2 with ⟨ps, hps, hlen, -⟩ | hcontra
  · simp only [Except.ok.injEq] at hps
    rw [← hps] at hlen
    simp at hlen
  · exact absurd hcontra (by simp)

/-- C3 (amended): the backend search either returns exactly `count` strictly
ascending ports, all ≥ 1024 and none occupied — which the store forwards
unchanged — or fails with `ExhaustedRange`, in which case the store records
"ExhaustedRange" in its error field but resolves the caller's promise with the
empty list rather than the failure. -/
theorem findFreePorts_spec (st : PortStoreState) (occupied : List Nat)
    (count : Nat) :
    (∃ ps, findFreePortsBackend occupied count = .ok ps ∧
      ps.length = count ∧ List.Chain' (· < ·) ps ∧
      (∀ p ∈ ps, 1024 ≤ p ∧ p ∉ occupied) ∧
      findFreePortsStore st occupied count = (.ok ps, st)) ∨
    (findFreePortsBackend occupied count = .error .exhaustedRange ∧
      (findFreePortsStore st occupied count).1 = .ok [] ∧
      (findFreePortsStore st occupied count).2.error = some "ExhaustedRange") := by
  cases hb : findFreePortsBackend occupied count with
  | ok ps =>
      left
      have hb' : findFreePortsScanGo occupied count (65535 - 1024) 1024 [] =
          .ok ps := hb
      have := findFreePortsScanGo_ok occupied count (65535 - 1024) 1024 [] ps
        (by simp) (by simp) (by simp) (by norm_num) hb'
      exact ⟨ps, rfl, this.1, this.2.1, this.2.2, by
        simp only [findFreePortsStore, hb]⟩
  | error e =>
      right
      cases e
      have hs : findFreePortsStore st occupied count =
          (.ok [], { st with error := some (portErrorString .exhaustedRange) }) := by
        simp only [findFreePortsStore, hb]
      exact ⟨rfl, by rw [hs], by rw [hs]; simp [portErrorString]⟩

/-- `GpuStats` from types.ts. -/
structure GpuStats where
  name : String
  usage_percent : Option Rat
  memory_used_bytes : Option Nat
  memory_total_bytes : Option Nat
  temperature_celsius : Option Rat
  power_watts : Option Rat
deriving DecidableEq, Repr

/-- `CpuStats` from types.ts. -/
structure CpuStats where
  usage_percent : Rat
  core_count : Nat
  per_core_usage : List Rat
  frequency_mhz : Option Rat
deriving DecidableEq, Repr

/-- `MemoryStats` from types.ts. -/
structure MemoryStats where
  total_bytes : Nat
  used_bytes : Nat
  available_bytes : Nat
  usage_percent : Rat
  swap_total_bytes : Nat
  swap_used_bytes : Nat
deriving DecidableEq, Repr

/-- `SystemStats` from types.ts. -/
structure SystemStats where
  cpu : CpuStats
  memory : MemoryStats
  gpus : List GpuStats
  timestamp : Nat
deriving DecidableEq, Repr

/-- `StatsHistory` from Performance.tsx. -/
structure StatsHistory where
  timestamps : List Nat
  cpuUsage : List Rat
  memoryUsage : List Rat
  gpuUsage : List Rat
deriving DecidableEq, Repr

/-- `MAX_HISTORY_POINTS` from Performance.tsx: 30 minutes at 5s intervals. -/
def MAX_HISTORY_POINTS : Nat := 360

/-- JS `array.slice(-n)` for `n > 0`: the last `min n length` elements. -/
def sliceLast (n : Nat) (xs : List α) : List α := xs.drop (xs.length - n)

/-- The initial `history` state in Performance.tsx: four empty series. -/
def initialStatsHistory : StatsHistory :=
  { timestamps := [], cpuUsage := [], memoryUsage := [], gpuUsage := [] }

/-- The per-tick GPU reading: `newStats.gpus[0]?.usage_percent ?? 0`. -/
def gpuSample (s : SystemStats) : Rat :=
  (s.gpus.head?.bind GpuStats.usage_percent).getD 0

/-- The history update of a successful `fetchStats` tick in Performance.tsx:
append the new sample to each series, then keep only the last
`MAX_HISTORY_POINTS` entries of each. -/
def fetchStatsStep (prev : StatsHistory) (s : SystemStats) : StatsHistory :=
  { timestamps := sliceLast MAX_HISTORY_POINTS (prev.timestamps ++ [s.timestamp])
    cpuUsage := sliceLast MAX_HISTORY_POINTS (prev.cpuUsage ++ [s.cpu.usage_percent])
    memoryUsage :=
      sliceLast MAX_HISTORY_POINTS (prev.memoryUsage ++ [s.memory.usage_percent])
    gpuUsage := sliceLast MAX_HISTORY_POINTS (prev.gpuUsage ++ [gpuSample s]) }

/-- A run of successful sampler ticks from the initial (empty) history. -/
def runTicks (samples : List SystemStats) : StatsHistory :=
  samples.foldl fetchStatsStep initialStatsHistory

/-- The closed form of the history after the given samples: each series keeps
the last `MAX_HISTORY_POINTS` of the whole projected sample list. -/
def historyOf (samples : List SystemStats) : StatsHistory :=
  { timestamps := sliceLast MAX_HISTORY_POINTS (samples.map SystemStats.timestamp)
    cpuUsage :=
      sliceLast MAX_HISTORY_POINTS (samples.map fun s => s.cpu.usage_percent)
    memoryUsage :=
      sliceLast MAX_HISTORY_POINTS (samples.map fun s => s.memory.usage_percent)
    gpuUsage := sliceLast MAX_HISTORY_POINTS (samples.map gpuSample) }

lemma sliceLast_length (n : Nat) (xs : List α) :
    (sliceLast n xs).length = min xs.length n := by
  simp only [sliceLast, List.length_drop]
  omega

lemma take_append_take (n : Nat) (as bs : List α) :
    (as ++ bs.take n).take n = (as ++ bs).take n := by
  rw [List.take_append_eq_append_take, List.take_append_eq_append_take,
    List.take_take, Nat.min_eq_left (Nat.sub_le n as.length)]

lemma sliceLast_eq_reverse_take (n : Nat) (xs : List α) :
    sliceLast n xs = (xs.reverse.take n).reverse := by
  simpa [sliceLast] using List.rtake_eq_reverse_take_reverse xs n

lemma sliceLast_append_sliceLast (n : Nat) (xs ys : List α) :
    sliceLast n (sliceLast n xs ++ ys) = sliceLast n (xs ++ ys) := by
  rw [sliceLast_eq_reverse_take n (sliceLast n xs ++ ys),
    sliceLast_eq_reverse_take n (xs ++ ys), List.reverse_append,
    List.reverse_append]
  congr 1
  rw [sliceLast_eq_reverse_take, List.reverse_reverse]
  exact take_append_take n ys.reverse xs.reverse

lemma fetchStatsStep_historyOf (pre : List SystemStats) (s : SystemStats) :
    fetchStatsStep (historyOf pre) s = historyOf (pre ++ [s]) := by
  simp only [fetchStatsStep, historyOf, List.map_append, List.map_cons,
    List.map_nil, sliceLast_append_sliceLast]

lemma runTicks_eq_historyOf (samples : List SystemStats) :
    runTicks samples = historyOf samples := by
  suffices h : ∀ (rest pre : List SystemStats),
      rest.foldl fetchStatsStep (historyOf pre) = historyOf (pre ++ rest) by
    have := h samples []
    simpa [runTicks, historyOf, initialStatsHistory, sliceLast] using this
  intro rest
  induction rest with
  | nil => simp
  | cons s rest ih =>
      intro pre
      rw [List.foldl_cons, fetchStatsStep_historyOf, ih]
      simp

/-- C4: after `k` successful sampler ticks every one of the four history
series holds exactly `min k 360` points; after 361 ticks each holds exactly
360 points — the first tick's sample evicted, ticks 2 through 361 kept in
arrival order. -/
theorem history_window (samples : List SystemStats) :
    (runTicks samples).timestamps.length = min samples.length MAX_HISTORY_POINTS ∧
    (runTicks samples).cpuUsage.length = min samples.length MAX_HISTORY_POINTS ∧
    (runTicks samples).memoryUsage.length = min samples.length MAX_HISTORY_POINTS ∧
    (runTicks samples).gpuUsage.length = min samples.length MAX_HISTORY_POINTS ∧
    (samples.length = 361 →
      (runTicks samples).timestamps =
        (samples.drop 1).map SystemStats.timestamp ∧
      (runTicks samples).cpuUsage =
        (samples.drop 1).map (fun s => s.cpu.usage_percent) ∧
      (runTicks samples).memoryUsage =
        (samples.drop 1).map (fun s => s.memory.usage_percent) ∧
      (runTicks samples).gpuUsage = (samples.drop 1).map gpuSample) := by
  rw [runTicks_eq_historyOf]
  have hdrop : ∀ (f : SystemStats → Nat), samples.length = 361 →
      sliceLast MAX_HISTORY_POINTS (samples.map f) = (samples.drop 1).map f := by
    intro f h
    simp [sliceLast, MAX_HISTORY_POINTS, h, List.map_drop]
  have hdropQ : ∀ (f : SystemStats → Rat), samples.length = 361 →
      sliceLast MAX_HISTORY_POINTS (samples.map f) = (samples.drop 1).map f := by
    intro f h
    simp [sliceLast, MAX_HISTORY_POINTS, h, List.map_drop]
  refine ⟨?_, ?_, ?_, ?_, ?_⟩
  · simp [historyOf, sliceLast_length]
  · simp [historyOf, sliceLast_length]
  · simp [historyOf, sliceLast_length]
  · simp [historyOf, sliceLast_length]
  · intro h
    exact ⟨hdrop SystemStats.timestamp h, hdropQ _ h, hdropQ _ h, hdropQ gpuSample h⟩

/-- A concrete stats sample used by the C4 witness. -/
def sampleA : SystemStats :=
  { cpu := { usage_percent := 7/2, core_count := 4
             per_core_usage := [1, 2, 3, 4], frequency_mhz := none }
    memory := { total_bytes := 1000, used_bytes := 500, available_bytes := 500
                usage_percent := 50, swap_total_bytes := 0, swap_used_bytes := 0 }
    gpus := []
    timestamp := 1700000000 }

/-- Witness for C4: a concrete 361-tick run retains exactly 360 points and the
series equal the projections of ticks 2‥361. -/
theorem history_window_witness :
    (runTicks (List.replicate 361 sampleA)).timestamps.length =
      min (List.replicate 361 sampleA).length MAX_HISTORY_POINTS ∧
    (runTicks (List.replicate 361 sampleA)).timestamps =
      ((List.replicate 361 sampleA).drop 1).map SystemStats.timestamp :=
  ⟨(history_window (List.replicate 361 sampleA)).1,
   ((history_window (List.replicate 361 sampleA)).2.2.2.2 (by simp)).1⟩

/-- The per-service projection `getServiceRecommendations` serializes for the
backend (commands.ts): exactly id, name, status, type, ports, auto_start. -/
structure RecommendationEntry where
  id : String
  name : String
  status : ServiceStatus
  type : ServiceType
  ports : List Nat
  auto_start : Bool
deriving DecidableEq, Repr

/-- The field projection applied to each serialized service. -/
def recommendationProjection (s : Service) : RecommendationEntry :=
  { id := s.id, name := s.name, status := s.status, type := s.service_type
    ports := s.ports, auto_start := s.auto_start }

/-- The request body built by `getServiceRecommendations` in commands.ts:
`services.slice(0, 50).map(projection)`. -/
def recommendationRequest (services : List Service) : List RecommendationEntry :=
  (services.take 50).map recommendationProjection

/-- C9: the serialized recommendation request holds exactly the first 50
services (all of them when fewer), in original order, each reduced to the six
projected fields; positions from the fifty-first on are never sent. -/
theorem recommendation_request_first_fifty (services : List Service) :
    (recommendationRequest services).length = min services.length 50 ∧
    ∀ i : Nat, (recommendationRequest services).get? i =
      if i < 50 then (services.get? i).map recommendationProjection else none := by
  constructor
  · simp [recommendationRequest, Nat.min_comm]
  · intro i
    by_cases hi : i < 50
    · rw [if_pos hi]
      simp only [recommendationRequest, List.get?_map]
      rw [List.get?_take hi]
    · rw [if_neg hi]
      simp only [recommendationRequest, List.get?_map]
      have : (services.take 50).get? i = none := by
        rw [List.get?_eq_none]
        calc (services.take 50).length ≤ 50 := by
              simp [List.length_take]
          _ ≤ i := Nat.le_of_not_lt hi
      rw [this]
      rfl

/-- `SecuritySeverity` from types.ts. -/
inductive SecuritySeverity where
  | critical
  | high
  | medium
  | low
  | info
deriving DecidableEq, Repr

/-- `SecurityCategory` from types.ts. -/
inductive SecurityCategory where
  | unencrypted_connection
  | public_exposure
  | default_credentials
  | outdated_software
  | missing_authentication
  | insecure_configuration
  | privilege_escalation
  | data_leakage
deriving DecidableEq, Repr

/-- `SecurityIssue` from types.ts. -/
structure SecurityIssue where
  id : String
  service_id : Option String
  service_name : Option String
  category : SecurityCategory
  severity : SecuritySeverity
  title : String
  description : String
  recommendation : String
  port : Option Nat
  details : Option String
deriving DecidableEq, Repr

/-- `SecurityScanResult` from types.ts. -/
structure SecurityScanResult where
  issues : List SecurityIssue
  scan_timestamp : Nat
  services_scanned : Nat
  ports_scanned : Nat
  critical_count : Nat
  high_count : Nat
  medium_count : Nat
  low_count : Nat
deriving DecidableEq, Repr

/-- The `criticalAndHigh` group computed by the Security page. -/
def criticalAndHigh (r : SecurityScanResult) : List SecurityIssue :=
  r.issues.filter fun i =>
    i.severity == SecuritySeverity.critical || i.severity == SecuritySeverity.high

/-- The `mediumAndLow` group computed by the Security page. -/
def mediumAndLow (r : SecurityScanResult) : List SecurityIssue :=
  r.issues.filter fun i =>
    i.severity == SecuritySeverity.medium || i.severity == SecuritySeverity.low ||
      i.severity == SecuritySeverity.info

/-- C10: the Security page's two issue groups partition the scan result's
issues: membership in the critical-and-high group is exactly severity critical
or high, membership in the medium-and-low group is exactly severity medium,
low or info, and the two group sizes add up to the whole issue list. -/
theorem security_groups_partition (r : SecurityScanResult) :
    (∀ i : SecurityIssue, i ∈ criticalAndHigh r ↔
        i ∈ r.issues ∧
          (i.severity = .critical ∨ i.severity = .high)) ∧
    (∀ i : SecurityIssue, i ∈ mediumAndLow r ↔
        i ∈ r.issues ∧
          (i.severity = .medium ∨ i.severity = .low ∨ i.severity = .info)) ∧
    (criticalAndHigh r).length + (mediumAndLow r).length = r.issues.length := by
  refine ⟨?_, ?_, ?_⟩
  · intro i
    simp [criticalAndHigh, List.mem_filter]
  · intro i
    simp [mediumAndLow, List.mem_filter, or_assoc]
  · simp only [criticalAndHigh, mediumAndLow]
    induction r.issues with
    | nil => rfl
    | cons a t ih =>
        cases ha : a.severity <;>
          simp [List.filter_cons, ha, Nat.succ_eq_add_one] <;> omega

/-- How often a given severity occurs in an issue list. -/
def severityCount (issues : List SecurityIssue) (sev : SecuritySeverity) : Nat :=
  (issues.filter fun i => i.severity == sev).length

/-- Modelled from the spec: the backend security scanner (`scan_security`,
Rust code not under src/) assembles the `SecurityScanResult`; per the spec the
aggregate counts are derived, not stored independently — each equals the count
of issues with that severity in the same result. -/
def mkSecurityScanResult (issues : List SecurityIssue)
    (ts servicesScanned portsScanned : Nat) : SecurityScanResult :=
  { issues := issues, scan_timestamp := ts
    services_scanned := servicesScanned, ports_scanned := portsScanned
    critical_count := severityCount issues .critical
    high_count := severityCount issues .high
    medium_count := severityCount issues .medium
    low_count := severityCount issues .low }

/-- C7: in every scan result the backend assembles, each aggregate count
equals the number of issues of that severity in the same result's issue
list. -/
theorem severity_counts_derived (issues : List SecurityIssue)
    (ts servicesScanned portsScanned : Nat) :
    (mkSecurityScanResult issues ts servicesScanned portsScanned).critical_count =
      ((mkSecurityScanResult issues ts servicesScanned portsScanned).issues.filter
        fun i => i.severity == .critical).length ∧
    (mkSecurityScanResult issues ts servicesScanned portsScanned).high_count =
      ((mkSecurityScanResult issues ts servicesScanned portsScanned).issues.filter
        fun i => i.severity == .high).length ∧
    (mkSecurityScanResult issues ts servicesScanned portsScanned).medium_count =
      ((mkSecurityScanResult issues ts servicesScanned portsScanned).issues.filter
        fun i => i.severity == .medium).length ∧
    (mkSecurityScanResult issues ts servicesScanned portsScanned).low_count =
      ((mkSecurityScanResult issues ts servicesScanned portsScanned).issues.filter
        fun i => i.severity == .low).length :=
  ⟨rfl, rfl, rfl, rfl⟩

end NetworkManager
